import Mathlib

/-!
The openai-bot program: the Slack slash-command dispatcher and its three handlers

A shallow embedding of `main.go`.  Go strings are Lean strings (sequences of
code points, i.e. valid UTF-8 text).  Every function of `main.go` that talks
to the outside world is a pure function producing the list of calls it makes
(`Event`), in program order.  What the outside world answers in one run is
read from a `World` record: the value and the error returned by each library
call, the identifier drawn by `uuid.NewString` and the number drawn by
`rand.Float32`.  The package-level variables are a `Globals` record.
-/

namespace OpenAIBot

/-! ## Go standard library functions used by `main.go` -/

/-- Go `unicode.IsSpace`: the Latin-1 spaces tab, LF, VT, FF, CR, space, NEL
and NBSP, and above Latin-1 the code points of the `White_Space` table. -/
def isSpace (r : Char) : Bool :=
  let n := r.toNat
  (9 ≤ n && n ≤ 13) || n == 0x20 || n == 0x85 || n == 0xA0 || n == 0x1680 ||
  (0x2000 ≤ n && n ≤ 0x200A) || n == 0x2028 || n == 0x2029 || n == 0x202F ||
  n == 0x205F || n == 0x3000

/-- Go `strings.HasPrefix`:
`len(s) >= len(prefix) && s[0:len(prefix)] == prefix`. -/
def HasPrefix (s pre : String) : Bool :=
  decide (pre.data.length ≤ s.data.length) && (s.data.take pre.data.length == pre.data)

/-- Go `strings.TrimPrefix`:
`if HasPrefix(s, prefix) { return s[len(prefix):] }; return s`. -/
def TrimPrefix (s pre : String) : String :=
  if HasPrefix s pre then ⟨s.data.drop pre.data.length⟩ else s

/-- Go `strings.TrimSpace`: the slice of `s` with all leading and all trailing
white space (`unicode.IsSpace`) removed. -/
def TrimSpace (s : String) : String :=
  ⟨((s.data.dropWhile isSpace).reverse.dropWhile isSpace).reverse⟩

/-- Go `strconv.NumError`: the error value of a failed conversion, with the
name of the failing function, the input text and the underlying error. -/
structure NumError where
  Func : String
  Num : String
  Err : String
deriving DecidableEq

/-- Go `strconv.ParseBool`: the value, and the error (`none` is `nil`); the
error of a text that is no boolean is
`&NumError{"ParseBool", str, ErrSyntax}`, where `ErrSyntax` is the error
"invalid syntax". -/
def ParseBool (str : String) : Bool × Option NumError :=
  if str = "1" ∨ str = "t" ∨ str = "T" ∨ str = "true" ∨ str = "TRUE" ∨ str = "True" then
    (true, none)
  else if str = "0" ∨ str = "f" ∨ str = "F" ∨ str = "false" ∨ str = "FALSE" ∨ str = "False" then
    (false, none)
  else
    (false, some { Func := "ParseBool", Num := str, Err := "invalid syntax" })

/-! ## Data model -/

/-- The package-level variables of `main.go` (`openAI` is built from
`openaiToken`). -/
structure Globals where
  openaiToken : String
  slackToken : String
  sendToSlack : Bool
  debug : Bool
  gcsBucket : String
deriving DecidableEq

/-- The fields of `slack.SlashCommand` that `main.go` reads. -/
structure SlashCommand where
  Text : String
  ResponseURL : String
deriving DecidableEq

/-- What `handleSlackCommand` sees of the request: the value and error returned
by `slack.SlashCommandParse(req)` and the rendering of `req` under `%v`. -/
structure Request where
  slashCommand : SlashCommand
  err : Option String
  dump : String
deriving DecidableEq

/-- The constants `slack.PlainTextType` and `slack.MarkdownType`. -/
inductive TextType where
  | PlainTextType
  | MarkdownType
deriving DecidableEq

/-- The value built by `slack.NewTextBlockObject(type, text, emoji, verbatim)`. -/
structure TextBlockObject where
  Type_ : TextType
  Text : String
  Emoji : Bool
  Verbatim : Bool
deriving DecidableEq

/-- The two kinds of `slack.Block` built by `main.go`:
`slack.NewImageBlock(imageURL, altText, blockID, title)` and
`slack.NewSectionBlock(text, fields, accessory)`. -/
inductive Block where
  | ImageBlock (ImageURL AltText BlockID : String) (Title : Option TextBlockObject)
  | SectionBlock (Text : Option TextBlockObject) (Fields : List TextBlockObject)
      (Accessory : Option Unit)
deriving DecidableEq

/-- The constant `slack.ResponseTypeInChannel` (the only response type used). -/
inductive ResponseType where
  | ResponseTypeInChannel
deriving DecidableEq

/-- The fields of `slack.WebhookMessage` that `main.go` sets. -/
structure WebhookMessage where
  Blocks : List Block
  ResponseType : ResponseType
deriving DecidableEq

/-- The model selectors `openai.MODEL_GPT_DAVINCI` and
`openai.MODEL_CODEX_DAVINCI`, kept symbolic. -/
inductive Model where
  | MODEL_GPT_DAVINCI
  | MODEL_CODEX_DAVINCI
deriving DecidableEq

/-- The constant `openai.RESPONSE_FORMAT_BASE64`, kept symbolic. -/
inductive ResponseFormat where
  | RESPONSE_FORMAT_BASE64
deriving DecidableEq

/-- One entry of the image response: `img.Data[i]`. -/
structure ImageData where
  B64Data : String
deriving DecidableEq

/-- The value returned by `openAI.GenerateImage`. -/
structure ImageResponse where
  Data : List ImageData
deriving DecidableEq

/-- One entry of the completion response: `res.Choices[i]`. -/
structure Choice where
  Text : String
deriving DecidableEq

/-- The value returned by `openAI.CompleteText`. -/
structure CompletionResponse where
  Choices : List Choice
deriving DecidableEq

/-- A goroutine started by `handleSlackCommand`: the function and its
arguments. -/
inductive Task where
  | generateImage (prompt : String) (cmd : SlashCommand) (bucket : String)
  | completeText (prompt : String) (cmd : SlashCommand)
  | completeCode (prompt : String) (cmd : SlashCommand)
deriving DecidableEq

/-- Log levels used by `main.go`. -/
inductive Level where
  | Info
  | Error
deriving DecidableEq

/-- The calls `main.go` makes, one constructor per call site kind. -/
inductive Event where
  /-- A call `logger.Info().Msgf` or `logger.Error().Msgf`, with the formatted text. -/
  | Log (level : Level) (msg : String)
  /-- A call `openAI.GenerateImage(prompt, responseFormat, size, n)`. -/
  | GenerateImage (prompt : String) (responseFormat : ResponseFormat) (size : String) (n : Nat)
  /-- A call `openAI.CompleteText(prompt, model, temperature, maxTokens)`. -/
  | CompleteText (prompt : String) (model : Model) (temperature : Nat) (maxTokens : Nat)
  /-- A call `storage.NewClient(ctx)`. -/
  | NewClient
  /-- A call `o.NewWriter(ctx)` on the object handle `bucket/object`, with the
  `DoesNotExist` precondition of the handle. -/
  | NewWriter (bucket object : String) (DoesNotExist : Bool)
  /-- A call `io.Copy(wc, reader)`: the writer's object and the base64 text
  behind the decoding reader. -/
  | Copy (bucket object : String) (b64 : String)
  /-- A call `wc.Close()`. -/
  | WriterClose (bucket object : String)
  /-- A call `acl.Set(ctx, storage.AllUsers, storage.RoleReader)` on the ACL
  handle of `bucket/object`. -/
  | ACLSet (bucket object : String)
  /-- A call `slack.PostWebhook(url, &msg)`. -/
  | PostWebhook (url : String) (msg : WebhookMessage)
  /-- The deferred `cancel()`. -/
  | Cancel
  /-- The deferred `gcs.Close()`. -/
  | ClientClose
  /-- A call `w.Write(body)` on the HTTP response writer. -/
  | Write (body : String)
  /-- A `go` statement. -/
  | Go (task : Task)
deriving DecidableEq

/-- The answers of the outside world during one handler run; an error of
`none` is Go's `nil`.  `image` and `completion` are the first return values of
the two API calls, `none` standing for a nil pointer; Go lets a call return a
value together with an error.  `float32` stands for the number drawn by
`rand.Float32()`. -/
structure World where
  image : Option ImageResponse
  imageErr : Option String
  completion : Option CompletionResponse
  completionErr : Option String
  float32 : Nat
  uuid : String
  newClientErr : Option String
  copyErr : Option String
  closeErr : Option String
  aclErr : Option String
  postErr : Option String
deriving DecidableEq

/-- The outcome of running one handler: the calls made, and whether the run
ended in a Go run-time panic (nil dereference or index out of range). -/
structure Run where
  trace : List Event
  panicked : Bool
deriving DecidableEq

/-- The statement `if err != nil { logger.Error().Msgf(format + "%v", err) }`
with nothing else in its body. -/
def logError (format : String) (err : Option String) : List Event :=
  match err with
  | some e => [Event.Log Level.Error (format ++ e)]
  | none => []

/-! ## The handlers -/

/-- Lines 31-84 of `main.go`.  After the error check of the API call there is
no `return`; `img.Data[0]` panics when `img` is nil or `Data` is empty, before
either `defer` is reached.  After the error check of `storage.NewClient`
there is no `return` either: the client returned with an error is nil, both
`defer` statements are executed, and `gcs.Bucket(bucket)` on the nil client
panics (nil dereference) before any writer is opened; the two deferred calls
run while the goroutine panics, `cancel()` first. -/
def generateImage (g : Globals) (w : World) (prompt : String) (cmd : SlashCommand)
    (bucket : String) : Run :=
  -- img, err := openAI.GenerateImage(...); if err != nil { log }
  let t := [Event.GenerateImage prompt ResponseFormat.RESPONSE_FORMAT_BASE64 "256x256" 1]
    ++ logError "Error requesting image: " w.imageErr
  -- img.Data[0].B64Data
  match w.image.bind (fun img => img.Data.head?) with
  | none => { trace := t, panicked := true }
  | some d =>
    let reader := d.B64Data
    let object := "dalle_" ++ w.uuid ++ ".png"
    let publicUrl := "https://storage.googleapis.com/" ++ bucket ++ "/" ++ object
    let titleBlock : TextBlockObject :=
      { Type_ := TextType.PlainTextType, Text := prompt, Emoji := false, Verbatim := false }
    let imageBlock := Block.ImageBlock publicUrl prompt "image1" (some titleBlock)
    let msg : WebhookMessage :=
      { Blocks := [imageBlock], ResponseType := ResponseType.ResponseTypeInChannel }
    -- gcs, err := storage.NewClient(ctx); if err != nil { log }
    let t := t ++ [Event.NewClient] ++ logError "storage.NewClient: " w.newClientErr
    match w.newClientErr with
    | some _ =>
      -- gcs is nil: defer gcs.Close(); defer cancel(); gcs.Bucket(bucket) panics
      { trace := t ++ [Event.Cancel, Event.ClientClose], panicked := true }
    | none =>
      { trace := t
          ++ [Event.NewWriter bucket object true]
          ++ [Event.Copy bucket object reader] ++ logError "io.Copy: " w.copyErr
          ++ [Event.WriterClose bucket object] ++ logError "Writer.Close: " w.closeErr
          ++ [Event.Log Level.Info ("Blob " ++ object ++ " uploaded.\n")]
          ++ [Event.ACLSet bucket object] ++ logError "ACLHandle.Set: " w.aclErr
          ++ [Event.Log Level.Info ("Blob " ++ object ++ " is now publicly accessible.\n")]
          ++ (if g.sendToSlack then
                [Event.PostWebhook cmd.ResponseURL msg]
                  ++ logError "Failed to post to slack: " w.postErr
              else [])
          ++ [Event.Cancel, Event.ClientClose],
        panicked := false }

/-- Lines 86-104 of `main.go`.  `res.Choices[0]` panics when `res` is nil or
has no choice. -/
def completeText (g : Globals) (w : World) (prompt : String) (cmd : SlashCommand) : Run :=
  let t := [Event.CompleteText prompt Model.MODEL_GPT_DAVINCI w.float32 256]
  match w.completionErr with
  | some e =>
    { trace := t ++ [Event.Log Level.Error ("Error requesting text completion: " ++ e)],
      panicked := false }
  | none =>
    match w.completion.bind (fun res => res.Choices.head?) with
    | none => { trace := t, panicked := true }
    | some c =>
      let textBlock : TextBlockObject :=
        { Type_ := TextType.MarkdownType, Text := ">" ++ prompt ++ "\n" ++ c.Text,
          Emoji := false, Verbatim := false }
      let section_ := Block.SectionBlock (some textBlock) [] none
      let msg : WebhookMessage :=
        { Blocks := [section_], ResponseType := ResponseType.ResponseTypeInChannel }
      { trace := t
          ++ (if g.sendToSlack then
                [Event.PostWebhook cmd.ResponseURL msg]
                  ++ logError "Failed to post to slack: " w.postErr
              else []),
        panicked := false }

/-- Lines 106-124 of `main.go`. -/
def completeCode (g : Globals) (w : World) (prompt : String) (cmd : SlashCommand) : Run :=
  let t := [Event.CompleteText prompt Model.MODEL_CODEX_DAVINCI w.float32 256]
  match w.completionErr with
  | some e =>
    { trace := t ++ [Event.Log Level.Error ("Error requesting text completion: " ++ e)],
      panicked := false }
  | none =>
    match w.completion.bind (fun res => res.Choices.head?) with
    | none => { trace := t, panicked := true }
    | some c =>
      let textBlock : TextBlockObject :=
        { Type_ := TextType.MarkdownType, Text := ">" ++ prompt ++ "\n" ++ c.Text,
          Emoji := false, Verbatim := false }
      let section_ := Block.SectionBlock (some textBlock) [] none
      let msg : WebhookMessage :=
        { Blocks := [section_], ResponseType := ResponseType.ResponseTypeInChannel }
      { trace := t
          ++ (if g.sendToSlack then
                [Event.PostWebhook cmd.ResponseURL msg]
                  ++ logError "Failed to post to slack: " w.postErr
              else []),
        panicked := false }

/-- Lines 126-151 of `main.go`: the calls made by the HTTP handler itself. -/
def handleSlackCommand (g : Globals) (req : Request) : List Event :=
  let slashCommand := req.slashCommand
  let t := (match req.err with
    | some _ => [Event.Log Level.Error ("Error parsing slack command: " ++ req.dump)]
    | none => [])
  let cmd := slashCommand.Text
  let t := t ++ [Event.Log Level.Info ("Received slack command: " ++ cmd)]
  if HasPrefix cmd "dalle" then
    let prompt := TrimSpace (TrimPrefix cmd "dalle")
    t ++ [Event.Go (Task.generateImage prompt slashCommand g.gcsBucket)]
  else if HasPrefix cmd "gpt" then
    let prompt := TrimSpace (TrimPrefix cmd "gpt")
    t ++ [Event.Go (Task.completeText prompt slashCommand)]
  else if HasPrefix cmd "code" then
    let prompt := TrimSpace (TrimPrefix cmd "code")
    t ++ [Event.Go (Task.completeCode prompt slashCommand)]
  else
    t ++ [Event.Log Level.Error ("Unknown command: '" ++ cmd ++ "'")]
      ++ (if g.sendToSlack then [Event.Write ("Unknown command: '" ++ cmd ++ "'")] else [])

/-- The override section of `main` (lines 154-176): `flags` holds the five
variables after `flag.Parse()`, `LookupEnv` is `os.LookupEnv`; the result
holds the variables when the section ends. -/
def main (flags : Globals) (LookupEnv : String → Option String) : Globals :=
  let slackToken := match LookupEnv "SLACK_TOKEN" with
    | some val => val
    | none => flags.slackToken
  let sendToSlack := match LookupEnv "SEND_TO_SLACK" with
    | some val => (ParseBool val).1
    | none => flags.sendToSlack
  let openaiToken := match LookupEnv "OPEN_AI_TOKEN" with
    | some val => val
    | none => flags.openaiToken
  let gcsBucket := match LookupEnv "GCS_BUCKET" with
    | some val => val
    | none => flags.gcsBucket
  let debug := match LookupEnv "BOT_DEBUG" with
    | some val => (ParseBool val).1
    | none => flags.debug
  { openaiToken := openaiToken, slackToken := slackToken, sendToSlack := sendToSlack,
    debug := debug, gcsBucket := gcsBucket }

/-- Go `os.Getenv`: the value of the variable, empty when it is not set. -/
def Getenv (LookupEnv : String → Option String) (key : String) : String :=
  match LookupEnv key with
  | some val => val
  | none => ""

/-- Lines 192-199 of `main.go`: the port chosen by `serve`, the one it passes
to `http.ListenAndServe` after a colon. -/
def serve (LookupEnv : String → Option String) : String :=
  let port := Getenv LookupEnv "PORT"
  if port = "" then "8080" else port

/-! ## Observations on traces -/

/-- The goroutines started in a trace, in order. -/
def started : List Event → List Task
  | [] => []
  | Event.Go k :: t => k :: started t
  | _ :: t => started t

/-- The body of the HTTP response: what was written to the response writer. -/
def responseBody : List Event → String
  | [] => ""
  | Event.Write body :: t => body ++ responseBody t
  | _ :: t => responseBody t

/-- The webhook posts of a trace: URL and message, in order. -/
def posts : List Event → List (String × WebhookMessage)
  | [] => []
  | Event.PostWebhook url msg :: t => (url, msg) :: posts t
  | _ :: t => posts t

/-- The objects a writer was opened on in a trace. -/
def uploads : List Event → List (String × String)
  | [] => []
  | Event.NewWriter bucket object _ :: t => (bucket, object) :: uploads t
  | _ :: t => uploads t

/-- The objects an ACL-set call was made on in a trace. -/
def aclSets : List Event → List (String × String)
  | [] => []
  | Event.ACLSet bucket object :: t => (bucket, object) :: aclSets t
  | _ :: t => aclSets t

/-- The image URLs of the image blocks posted in a trace. -/
def postedImageURLs (t : List Event) : List String :=
  (posts t).flatMap (fun p => p.2.Blocks.filterMap (fun b =>
    match b with
    | Block.ImageBlock url _ _ _ => some url
    | Block.SectionBlock _ _ _ => none))

/-- Running a started goroutine. -/
def runTask (g : Globals) (w : World) : Task → Run
  | Task.generateImage prompt cmd bucket => generateImage g w prompt cmd bucket
  | Task.completeText prompt cmd => completeText g w prompt cmd
  | Task.completeCode prompt cmd => completeCode g w prompt cmd

/-- Everything one inbound command causes: the calls of the HTTP handler
followed by the calls of each goroutine it started. -/
def handleAndRun (g : Globals) (w : World) (req : Request) : List Event :=
  handleSlackCommand g req
    ++ (started (handleSlackCommand g req)).flatMap (fun k => (runTask g w k).trace)


/-! ## The dispatcher with its branches in another order -/

/-- The three command keywords of `handleSlackCommand`. -/
inductive Keyword where
  | dalle
  | gpt
  | code
deriving DecidableEq

/-- The literal tested by the branch of a keyword. -/
def Keyword.literal : Keyword → String
  | Keyword.dalle => "dalle"
  | Keyword.gpt => "gpt"
  | Keyword.code => "code"

/-- The goroutine started by the branch of a keyword. -/
def Keyword.task (k : Keyword) (prompt : String) (cmd : SlashCommand) (bucket : String) : Task :=
  match k with
  | Keyword.dalle => Task.generateImage prompt cmd bucket
  | Keyword.gpt => Task.completeText prompt cmd
  | Keyword.code => Task.completeCode prompt cmd

/-- The dispatcher obtained from `handleSlackCommand` by trying the branches of
its `if`/`else if` chain in the order `order`: the first keyword of `order`
whose literal is a prefix of the text has its branch run, and the final `else`
runs when there is none. -/
def handleSlackCommandInOrder (order : List Keyword) (g : Globals) (req : Request) :
    List Event :=
  let slashCommand := req.slashCommand
  let t := (match req.err with
    | some _ => [Event.Log Level.Error ("Error parsing slack command: " ++ req.dump)]
    | none => [])
  let cmd := slashCommand.Text
  let t := t ++ [Event.Log Level.Info ("Received slack command: " ++ cmd)]
  match order.find? (fun k => HasPrefix cmd k.literal) with
  | some k =>
    let prompt := TrimSpace (TrimPrefix cmd k.literal)
    t ++ [Event.Go (k.task prompt slashCommand g.gcsBucket)]
  | none =>
    t ++ [Event.Log Level.Error ("Unknown command: '" ++ cmd ++ "'")]
      ++ (if g.sendToSlack then [Event.Write ("Unknown command: '" ++ cmd ++ "'")] else [])

/-! ## Facts about the string functions -/

theorem HasPrefix_iff (s pre : String) :
    HasPrefix s pre = true ↔ ∃ rest, s.data = pre.data ++ rest := by
  unfold HasPrefix
  constructor
  · intro h
    simp only [Bool.and_eq_true, decide_eq_true_eq, beq_iff_eq] at h
    refine ⟨s.data.drop pre.data.length, ?_⟩
    conv_lhs => rw [← List.take_append_drop pre.data.length s.data]
    rw [h.2]
  · rintro ⟨rest, h⟩
    simp [h]

theorem TrimPrefix_data (s pre : String) (h : HasPrefix s pre = true) :
    s.data = pre.data ++ (TrimPrefix s pre).data := by
  obtain ⟨rest, hr⟩ := (HasPrefix_iff s pre).1 h
  simp [TrimPrefix, h, hr]

theorem TrimSpace_data (s : String) :
    ∃ lead trail : List Char,
      s.data = lead ++ (TrimSpace s).data ++ trail ∧
      (∀ c ∈ lead, isSpace c = true) ∧ (∀ c ∈ trail, isSpace c = true) ∧
      (∀ c, (TrimSpace s).data.head? = some c → isSpace c = false) ∧
      (∀ c, (TrimSpace s).data.getLast? = some c → isSpace c = false) := by
  have hmid : (TrimSpace s).data = (s.data.dropWhile isSpace).rdropWhile isSpace := rfl
  refine ⟨s.data.takeWhile isSpace, (s.data.dropWhile isSpace).rtakeWhile isSpace, ?_, ?_, ?_, ?_, ?_⟩
  · rw [hmid, List.append_assoc]
    have h2 : (s.data.dropWhile isSpace).rdropWhile isSpace
        ++ (s.data.dropWhile isSpace).rtakeWhile isSpace = s.data.dropWhile isSpace := by
      unfold List.rdropWhile List.rtakeWhile
      rw [← List.reverse_append, List.takeWhile_append_dropWhile, List.reverse_reverse]
    rw [h2, List.takeWhile_append_dropWhile]
  · intro c hc
    exact List.mem_takeWhile_imp hc
  · intro c hc
    unfold List.rtakeWhile at hc
    exact List.mem_takeWhile_imp (List.mem_reverse.1 hc)
  · intro c hc
    rw [hmid] at hc
    obtain ⟨t, ht⟩ := List.rdropWhile_prefix isSpace (s.data.dropWhile isSpace)
    cases hm : (s.data.dropWhile isSpace).rdropWhile isSpace with
    | nil => rw [hm] at hc; simp at hc
    | cons a m =>
      rw [hm] at hc ht
      simp only [List.head?_cons, Option.some.injEq] at hc
      subst hc
      have hne : s.data.dropWhile isSpace ≠ [] := by rw [← ht]; simp
      have := List.head_dropWhile_not isSpace s.data hne
      simp only [← ht, List.cons_append, List.head_cons] at this
      simpa using this
  · intro c hc
    rw [hmid] at hc
    cases hm : (s.data.dropWhile isSpace).rdropWhile isSpace with
    | nil => rw [hm] at hc; simp at hc
    | cons a m =>
      have hne : (s.data.dropWhile isSpace).rdropWhile isSpace ≠ [] := by rw [hm]; simp
      have h := List.rdropWhile_last_not isSpace (s.data.dropWhile isSpace) hne
      rw [List.getLast?_eq_getLast _ hne] at hc
      simp only [Option.some.injEq] at hc
      rw [hc] at h
      simpa using h

theorem prefixes_exclusive (s : String) :
    (HasPrefix s "dalle" = true → HasPrefix s "gpt" = false ∧ HasPrefix s "code" = false) ∧
    (HasPrefix s "gpt" = true → HasPrefix s "dalle" = false ∧ HasPrefix s "code" = false) ∧
    (HasPrefix s "code" = true → HasPrefix s "dalle" = false ∧ HasPrefix s "gpt" = false) := by
  have key : ∀ p q : String, p.data.head? ≠ q.data.head? → p.data ≠ [] → q.data ≠ [] →
      HasPrefix s p = true → HasPrefix s q = false := by
    intro p q hpq hp hq h
    obtain ⟨r, hr⟩ := (HasPrefix_iff s p).1 h
    cases hq' : HasPrefix s q with
    | false => rfl
    | true =>
      obtain ⟨r', hr'⟩ := (HasPrefix_iff s q).1 hq'
      exfalso
      apply hpq
      have h1 : s.data.head? = p.data.head? := by
        rw [hr]; cases hd : p.data with
        | nil => exact absurd hd hp
        | cons a l => simp
      have h2 : s.data.head? = q.data.head? := by
        rw [hr']; cases hd : q.data with
        | nil => exact absurd hd hq
        | cons a l => simp
      rw [← h1, h2]
  refine ⟨fun h => ⟨key _ _ (by decide) (by decide) (by decide) h, key _ _ (by decide) (by decide) (by decide) h⟩,
    fun h => ⟨key _ _ (by decide) (by decide) (by decide) h, key _ _ (by decide) (by decide) (by decide) h⟩,
    fun h => ⟨key _ _ (by decide) (by decide) (by decide) h, key _ _ (by decide) (by decide) (by decide) h⟩⟩


/-! ## Facts about the trace observations -/

theorem started_append (a b : List Event) : started (a ++ b) = started a ++ started b := by
  induction a with
  | nil => rfl
  | cons e a ih => cases e <;> simp [started, ih]

theorem responseBody_append (a b : List Event) :
    responseBody (a ++ b) = responseBody a ++ responseBody b := by
  induction a with
  | nil => simp [responseBody]
  | cons e a ih => cases e <;> simp [responseBody, ih, String.append_assoc]

theorem posts_append (a b : List Event) : posts (a ++ b) = posts a ++ posts b := by
  induction a with
  | nil => rfl
  | cons e a ih => cases e <;> simp [posts, ih]

theorem uploads_append (a b : List Event) : uploads (a ++ b) = uploads a ++ uploads b := by
  induction a with
  | nil => rfl
  | cons e a ih => cases e <;> simp [uploads, ih]

theorem aclSets_append (a b : List Event) : aclSets (a ++ b) = aclSets a ++ aclSets b := by
  induction a with
  | nil => rfl
  | cons e a ih => cases e <;> simp [aclSets, ih]

theorem started_logError (f : String) (e : Option String) : started (logError f e) = [] := by
  cases e <;> rfl

theorem posts_logError (f : String) (e : Option String) : posts (logError f e) = [] := by
  cases e <;> rfl

theorem uploads_logError (f : String) (e : Option String) : uploads (logError f e) = [] := by
  cases e <;> rfl

theorem aclSets_logError (f : String) (e : Option String) : aclSets (logError f e) = [] := by
  cases e <;> rfl

/-! ## The claims -/

/-- C1: when the command text starts with "dalle", "gpt" or "code",
`handleSlackCommand` starts exactly one goroutine, the handler of that literal
(`generateImage`, `completeText`, `completeCode`), with the prompt
`TrimSpace (TrimPrefix text literal)`; and that prompt is the text with the
literal removed from the front and all leading and trailing white space
removed: the text is the literal, then white space, then the prompt, then
white space, and the prompt neither starts nor ends with white space. -/
theorem handleSlackCommand_starts_handler (g : Globals) (req : Request) :
    (HasPrefix req.slashCommand.Text "dalle" = true →
      started (handleSlackCommand g req) =
        [Task.generateImage (TrimSpace (TrimPrefix req.slashCommand.Text "dalle"))
          req.slashCommand g.gcsBucket]) ∧
    (HasPrefix req.slashCommand.Text "gpt" = true →
      started (handleSlackCommand g req) =
        [Task.completeText (TrimSpace (TrimPrefix req.slashCommand.Text "gpt"))
          req.slashCommand]) ∧
    (HasPrefix req.slashCommand.Text "code" = true →
      started (handleSlackCommand g req) =
        [Task.completeCode (TrimSpace (TrimPrefix req.slashCommand.Text "code"))
          req.slashCommand]) ∧
    (∀ lit : String, HasPrefix req.slashCommand.Text lit = true →
      ∃ lead trail : List Char,
        req.slashCommand.Text.data
          = lit.data ++ lead ++ (TrimSpace (TrimPrefix req.slashCommand.Text lit)).data ++ trail ∧
        (∀ c ∈ lead, isSpace c = true) ∧ (∀ c ∈ trail, isSpace c = true) ∧
        (∀ c, (TrimSpace (TrimPrefix req.slashCommand.Text lit)).data.head? = some c →
          isSpace c = false) ∧
        (∀ c, (TrimSpace (TrimPrefix req.slashCommand.Text lit)).data.getLast? = some c →
          isSpace c = false)) := by
  obtain ⟨hd, hg, hc⟩ := prefixes_exclusive req.slashCommand.Text
  obtain ⟨sc, err, dump⟩ := req
  refine ⟨?_, ?_, ?_, ?_⟩
  · intro h
    cases err <;> simp [handleSlackCommand, h, started]
  · intro h
    cases err <;> simp [handleSlackCommand, h, (hg h).1, started]
  · intro h
    cases err <;> simp [handleSlackCommand, h, (hc h).1, (hc h).2, started]
  · intro lit h
    obtain ⟨lead, trail, h1, h2, h3, h4, h5⟩ := TrimSpace_data (TrimPrefix sc.Text lit)
    refine ⟨lead, trail, ?_, h2, h3, h4, h5⟩
    show sc.Text.data = _
    rw [TrimPrefix_data _ _ h, h1]
    simp [List.append_assoc]

/-- The C1 theorem at the texts "dalle a red fox", "gpt  explain recursion "
and "code\tfib": the handler started and its prompt. -/
theorem handleSlackCommand_starts_handler_witness :
    (HasPrefix "dalle a red fox" "dalle" = true ∧
      started (handleSlackCommand ⟨"k", "s", true, false, "bkt"⟩
          ⟨⟨"dalle a red fox", "https://hooks/1"⟩, none, ""⟩)
        = [Task.generateImage "a red fox" ⟨"dalle a red fox", "https://hooks/1"⟩ "bkt"]) ∧
    (HasPrefix "gpt  explain recursion " "gpt" = true ∧
      started (handleSlackCommand ⟨"k", "s", true, false, "bkt"⟩
          ⟨⟨"gpt  explain recursion ", "https://hooks/1"⟩, none, ""⟩)
        = [Task.completeText "explain recursion" ⟨"gpt  explain recursion ", "https://hooks/1"⟩]) ∧
    (HasPrefix "code\tfib" "code" = true ∧
      started (handleSlackCommand ⟨"k", "s", false, false, "bkt"⟩
          ⟨⟨"code\tfib", "https://hooks/1"⟩, none, ""⟩)
        = [Task.completeCode "fib" ⟨"code\tfib", "https://hooks/1"⟩]) :=
  ⟨⟨by decide, (handleSlackCommand_starts_handler ⟨"k", "s", true, false, "bkt"⟩
      ⟨⟨"dalle a red fox", "https://hooks/1"⟩, none, ""⟩).1 (by decide)⟩,
   ⟨by decide, (handleSlackCommand_starts_handler ⟨"k", "s", true, false, "bkt"⟩
      ⟨⟨"gpt  explain recursion ", "https://hooks/1"⟩, none, ""⟩).2.1 (by decide)⟩,
   ⟨by decide, (handleSlackCommand_starts_handler ⟨"k", "s", false, false, "bkt"⟩
      ⟨⟨"code\tfib", "https://hooks/1"⟩, none, ""⟩).2.2.1 (by decide)⟩⟩

/-- C2: when the command text starts with none of "dalle", "gpt", "code",
`handleSlackCommand` starts no goroutine, and the response body is
`Unknown command: '<text>'` when `sendToSlack` is true and empty when it is
false. -/
theorem handleSlackCommand_unknown (g : Globals) (req : Request)
    (hd : HasPrefix req.slashCommand.Text "dalle" = false)
    (hg : HasPrefix req.slashCommand.Text "gpt" = false)
    (hc : HasPrefix req.slashCommand.Text "code" = false) :
    started (handleSlackCommand g req) = [] ∧
    responseBody (handleSlackCommand g req)
      = (if g.sendToSlack = true then "Unknown command: '" ++ req.slashCommand.Text ++ "'" else "") := by
  obtain ⟨sc, err, dump⟩ := req
  cases err <;> cases hs : g.sendToSlack <;>
    simp [handleSlackCommand, hd, hg, hc, hs, started, responseBody]

/-- The C2 theorem at the text "unknown foo" with notifications enabled, at
the empty text with notifications disabled, and at the case variant
"Dalle x". -/
theorem handleSlackCommand_unknown_witness :
    (HasPrefix "unknown foo" "dalle" = false ∧ HasPrefix "unknown foo" "gpt" = false ∧
      HasPrefix "unknown foo" "code" = false ∧
      started (handleSlackCommand ⟨"k", "s", true, false, "bkt"⟩
        ⟨⟨"unknown foo", "https://hooks/1"⟩, none, ""⟩) = [] ∧
      responseBody (handleSlackCommand ⟨"k", "s", true, false, "bkt"⟩
        ⟨⟨"unknown foo", "https://hooks/1"⟩, none, ""⟩) = "Unknown command: 'unknown foo'") ∧
    (HasPrefix "" "dalle" = false ∧ HasPrefix "" "gpt" = false ∧ HasPrefix "" "code" = false ∧
      started (handleSlackCommand ⟨"k", "s", false, false, "bkt"⟩
        ⟨⟨"", ""⟩, some "missing form body", "&{POST /slack_command}"⟩) = [] ∧
      responseBody (handleSlackCommand ⟨"k", "s", false, false, "bkt"⟩
        ⟨⟨"", ""⟩, some "missing form body", "&{POST /slack_command}"⟩) = "") ∧
    (HasPrefix "Dalle x" "dalle" = false ∧ HasPrefix "Dalle x" "gpt" = false ∧
      HasPrefix "Dalle x" "code" = false ∧
      started (handleSlackCommand ⟨"k", "s", true, false, "bkt"⟩
        ⟨⟨"Dalle x", "https://hooks/1"⟩, none, ""⟩) = [] ∧
      responseBody (handleSlackCommand ⟨"k", "s", true, false, "bkt"⟩
        ⟨⟨"Dalle x", "https://hooks/1"⟩, none, ""⟩) = "Unknown command: 'Dalle x'") :=
  ⟨⟨by decide, by decide, by decide,
      handleSlackCommand_unknown ⟨"k", "s", true, false, "bkt"⟩
        ⟨⟨"unknown foo", "https://hooks/1"⟩, none, ""⟩ (by decide) (by decide) (by decide)⟩,
   ⟨by decide, by decide, by decide,
      handleSlackCommand_unknown ⟨"k", "s", false, false, "bkt"⟩
        ⟨⟨"", ""⟩, some "missing form body", "&{POST /slack_command}"⟩
        (by decide) (by decide) (by decide)⟩,
   ⟨by decide, by decide, by decide,
      handleSlackCommand_unknown ⟨"k", "s", true, false, "bkt"⟩
        ⟨⟨"Dalle x", "https://hooks/1"⟩, none, ""⟩ (by decide) (by decide) (by decide)⟩⟩

/-- C10: no command text starts with two different literals among "dalle",
"gpt" and "code", and the dispatcher with its three branches tried in any
order is the dispatcher of `handleSlackCommand`. -/
theorem handleSlackCommand_order_irrelevant (g : Globals) (req : Request)
    (order : List Keyword)
    (h : order.Perm [Keyword.dalle, Keyword.gpt, Keyword.code]) :
    (∀ j k : Keyword, HasPrefix req.slashCommand.Text j.literal = true →
      HasPrefix req.slashCommand.Text k.literal = true → j = k) ∧
    handleSlackCommandInOrder order g req = handleSlackCommand g req := by
  obtain ⟨hd, hg, hc⟩ := prefixes_exclusive req.slashCommand.Text
  constructor
  · intro j k hj hk
    cases j <;> cases k <;> simp only [Keyword.literal] at hj hk <;>
      first
        | rfl
        | (have hx := hd hj; simp_all)
        | (have hx := hg hj; simp_all)
        | (have hx := hc hj; simp_all)
  · have hm := List.mem_permutations'.2 h
    have hp : List.permutations' [Keyword.dalle, Keyword.gpt, Keyword.code]
        = [[Keyword.dalle, Keyword.gpt, Keyword.code], [Keyword.gpt, Keyword.dalle, Keyword.code],
           [Keyword.gpt, Keyword.code, Keyword.dalle], [Keyword.dalle, Keyword.code, Keyword.gpt],
           [Keyword.code, Keyword.dalle, Keyword.gpt], [Keyword.code, Keyword.gpt, Keyword.dalle]] := by
      decide
    rw [hp] at hm
    simp only [List.mem_cons, List.mem_singleton, List.not_mem_nil, or_false] at hm
    cases hD : HasPrefix req.slashCommand.Text "dalle" <;>
    cases hG : HasPrefix req.slashCommand.Text "gpt" <;>
    cases hC : HasPrefix req.slashCommand.Text "code" <;>
    first
      | (have hx := hd hD; simp_all; done)
      | (have hx := hg hG; simp_all; done)
      | (rcases hm with rfl | rfl | rfl | rfl | rfl | rfl <;>
          simp [handleSlackCommandInOrder, handleSlackCommand, Keyword.literal, Keyword.task,
            List.find?, hD, hG, hC])

/-- The C10 theorem at the order code, dalle, gpt and the text
"gpt explain recursion". -/
theorem handleSlackCommand_order_irrelevant_witness :
    [Keyword.code, Keyword.dalle, Keyword.gpt].Perm [Keyword.dalle, Keyword.gpt, Keyword.code] ∧
    handleSlackCommandInOrder [Keyword.code, Keyword.dalle, Keyword.gpt]
        ⟨"k", "s", true, false, "bkt"⟩ ⟨⟨"gpt explain recursion", "https://hooks/1"⟩, none, ""⟩
      = handleSlackCommand ⟨"k", "s", true, false, "bkt"⟩
        ⟨⟨"gpt explain recursion", "https://hooks/1"⟩, none, ""⟩ :=
  ⟨by decide, (handleSlackCommand_order_irrelevant ⟨"k", "s", true, false, "bkt"⟩
    ⟨⟨"gpt explain recursion", "https://hooks/1"⟩, none, ""⟩
    [Keyword.code, Keyword.dalle, Keyword.gpt] (by decide)).2⟩

/-- The trace of `generateImage` when `img.Data[0]` exists and
`storage.NewClient` succeeds, whatever the errors returned by the API call and
by the other storage calls. -/
theorem generateImage_trace_of_data (g : Globals) (w : World) (prompt : String)
    (cmd : SlashCommand) (bucket : String) (d : ImageData)
    (h : w.image.bind (fun img => img.Data.head?) = some d)
    (hc : w.newClientErr = none) :
    generateImage g w prompt cmd bucket =
      { trace := [Event.GenerateImage prompt ResponseFormat.RESPONSE_FORMAT_BASE64 "256x256" 1]
          ++ logError "Error requesting image: " w.imageErr
          ++ [Event.NewClient]
          ++ [Event.NewWriter bucket ("dalle_" ++ w.uuid ++ ".png") true]
          ++ [Event.Copy bucket ("dalle_" ++ w.uuid ++ ".png") d.B64Data]
          ++ logError "io.Copy: " w.copyErr
          ++ [Event.WriterClose bucket ("dalle_" ++ w.uuid ++ ".png")]
          ++ logError "Writer.Close: " w.closeErr
          ++ [Event.Log Level.Info ("Blob " ++ ("dalle_" ++ w.uuid ++ ".png") ++ " uploaded.\n")]
          ++ [Event.ACLSet bucket ("dalle_" ++ w.uuid ++ ".png")]
          ++ logError "ACLHandle.Set: " w.aclErr
          ++ [Event.Log Level.Info
                ("Blob " ++ ("dalle_" ++ w.uuid ++ ".png") ++ " is now publicly accessible.\n")]
          ++ (if g.sendToSlack = true then
                [Event.PostWebhook cmd.ResponseURL
                  { Blocks := [Block.ImageBlock
                      ("https://storage.googleapis.com/" ++ bucket ++ "/"
                        ++ ("dalle_" ++ w.uuid ++ ".png"))
                      prompt "image1"
                      (some { Type_ := TextType.PlainTextType, Text := prompt, Emoji := false,
                              Verbatim := false })],
                    ResponseType := ResponseType.ResponseTypeInChannel }]
                  ++ logError "Failed to post to slack: " w.postErr
              else [])
          ++ [Event.Cancel, Event.ClientClose],
        panicked := false } := by
  simp only [generateImage, h, hc, logError, List.append_nil]

/-- The trace of `generateImage` when `img.Data[0]` exists and
`storage.NewClient` fails: the two calls, their error logs, the panic at
`gcs.Bucket` and the deferred calls. -/
theorem generateImage_trace_of_client_error (g : Globals) (w : World) (prompt : String)
    (cmd : SlashCommand) (bucket : String) (d : ImageData) (e : String)
    (h : w.image.bind (fun img => img.Data.head?) = some d)
    (hc : w.newClientErr = some e) :
    generateImage g w prompt cmd bucket =
      { trace := [Event.GenerateImage prompt ResponseFormat.RESPONSE_FORMAT_BASE64 "256x256" 1]
          ++ logError "Error requesting image: " w.imageErr
          ++ [Event.NewClient] ++ [Event.Log Level.Error ("storage.NewClient: " ++ e)]
          ++ [Event.Cancel, Event.ClientClose],
        panicked := true } := by
  simp only [generateImage, h, hc, logError]

/-- The trace of `generateImage` when `img` is nil or `img.Data` is empty: the
API call, the error log if the call failed, and the panic. -/
theorem generateImage_trace_of_no_data (g : Globals) (w : World) (prompt : String)
    (cmd : SlashCommand) (bucket : String)
    (h : w.image.bind (fun img => img.Data.head?) = none) :
    generateImage g w prompt cmd bucket =
      { trace := [Event.GenerateImage prompt ResponseFormat.RESPONSE_FORMAT_BASE64 "256x256" 1]
          ++ logError "Error requesting image: " w.imageErr,
        panicked := true } := by
  simp only [generateImage, h]

/-- The webhook posts of one `generateImage` run: none when `sendToSlack` is
false, at most one otherwise. -/
theorem posts_generateImage_le (g : Globals) (w : World) (prompt : String)
    (cmd : SlashCommand) (bucket : String) :
    (posts (generateImage g w prompt cmd bucket).trace).length
      ≤ (if g.sendToSlack = true then 1 else 0) := by
  cases h : w.image.bind (fun img => img.Data.head?) with
  | none =>
    rw [generateImage_trace_of_no_data g w prompt cmd bucket h]
    simp [posts_append, posts_logError, posts]
  | some d =>
    cases hc : w.newClientErr with
    | some e =>
      rw [generateImage_trace_of_client_error g w prompt cmd bucket d e h hc]
      simp [posts_append, posts_logError, posts]
    | none =>
      rw [generateImage_trace_of_data g w prompt cmd bucket d h hc]
      cases hs : g.sendToSlack <;> simp [posts_append, posts_logError, posts]

/-- The webhook posts of one `completeText` run. -/
theorem posts_completeText_le (g : Globals) (w : World) (prompt : String) (cmd : SlashCommand) :
    (posts (completeText g w prompt cmd).trace).length
      ≤ (if g.sendToSlack = true then 1 else 0) := by
  unfold completeText
  cases w.completionErr <;> cases w.completion.bind (fun res => res.Choices.head?) <;>
    cases hs : g.sendToSlack <;> simp [posts_append, posts_logError, posts]

/-- The webhook posts of one `completeCode` run. -/
theorem posts_completeCode_le (g : Globals) (w : World) (prompt : String) (cmd : SlashCommand) :
    (posts (completeCode g w prompt cmd).trace).length
      ≤ (if g.sendToSlack = true then 1 else 0) := by
  unfold completeCode
  cases w.completionErr <;> cases w.completion.bind (fun res => res.Choices.head?) <;>
    cases hs : g.sendToSlack <;> simp [posts_append, posts_logError, posts]

/-- C7: the webhook posts made by `handleSlackCommand` and by the handler it
starts number at most one, and none when `sendToSlack` is false, for every
command text, every value of the globals and every outcome of the external
calls. -/
theorem handleAndRun_posts_le_one (g : Globals) (w : World) (req : Request) :
    (posts (handleAndRun g w req)).length ≤ (if g.sendToSlack = true then 1 else 0) := by
  have h1 := posts_generateImage_le g w
  have h2 := posts_completeText_le g w
  have h3 := posts_completeCode_le g w
  obtain ⟨sc, err, dump⟩ := req
  unfold handleAndRun handleSlackCommand
  cases hD : HasPrefix sc.Text "dalle" <;> cases hG : HasPrefix sc.Text "gpt" <;>
    cases hC : HasPrefix sc.Text "code" <;> cases err <;>
    simp [hD, hG, hC, started, posts, posts_append, runTask, h1, h2, h3] <;>
    cases g.sendToSlack <;> simp [posts]

/-- C5: on a successful completion response with at least one choice,
`completeText` and `completeCode` each post to the command's `ResponseURL`,
exactly when `sendToSlack` is true, one message whose single block is a
section with the markdown text `>prompt`, a newline and the text of the first
choice, with response type in-channel; neither run panics; and the two traces
are equal except for the model passed to the completion API. -/
theorem complete_success_message (g : Globals) (w : World) (prompt : String)
    (cmd : SlashCommand) (res : CompletionResponse) (c : Choice) (cs : List Choice)
    (herr : w.completionErr = none) (hres : w.completion = some res)
    (hc : res.Choices = c :: cs) :
    posts (completeText g w prompt cmd).trace
      = (if g.sendToSlack = true then
          [(cmd.ResponseURL,
            { Blocks := [Block.SectionBlock
                (some { Type_ := TextType.MarkdownType, Text := ">" ++ prompt ++ "\n" ++ c.Text,
                        Emoji := false, Verbatim := false }) [] none],
              ResponseType := ResponseType.ResponseTypeInChannel })]
        else []) ∧
    posts (completeCode g w prompt cmd).trace = posts (completeText g w prompt cmd).trace ∧
    (completeText g w prompt cmd).panicked = false ∧
    (completeCode g w prompt cmd).panicked = false ∧
    (∃ rest : List Event,
      (completeText g w prompt cmd).trace
        = Event.CompleteText prompt Model.MODEL_GPT_DAVINCI w.float32 256 :: rest ∧
      (completeCode g w prompt cmd).trace
        = Event.CompleteText prompt Model.MODEL_CODEX_DAVINCI w.float32 256 :: rest) := by
  have hh : w.completion.bind (fun res => res.Choices.head?) = some c := by
    simp [hres, hc]
  refine ⟨?_, ?_, ?_, ?_, ?_⟩
  · cases hs : g.sendToSlack <;> cases hp : w.postErr <;>
      simp [completeText, herr, hh, hs, hp, posts, logError]
  · cases hs : g.sendToSlack <;> cases hp : w.postErr <;>
      simp [completeText, completeCode, herr, hh, hs, hp, posts, logError]
  · simp [completeText, herr, hh]
  · simp [completeCode, herr, hh]
  · refine ⟨(completeText g w prompt cmd).trace.tail, ?_, ?_⟩
    · simp [completeText, herr, hh]
    · simp [completeText, completeCode, herr, hh]

/-- The C5 theorem at the prompt "explain recursion" with the response
"A function that calls itself.": the message posted by both handlers. -/
theorem complete_success_message_witness :
    posts (completeText ⟨"k", "s", true, false, "bkt"⟩
        { image := none, imageErr := none,
          completion := some ⟨[⟨"A function that calls itself."⟩]⟩, completionErr := none,
          float32 := 7, uuid := "u", newClientErr := none, copyErr := none, closeErr := none,
          aclErr := none, postErr := none }
        "explain recursion" ⟨"gpt explain recursion", "https://hooks/1"⟩).trace
      = [("https://hooks/1",
          { Blocks := [Block.SectionBlock
              (some { Type_ := TextType.MarkdownType,
                      Text := ">explain recursion\nA function that calls itself.",
                      Emoji := false, Verbatim := false }) [] none],
            ResponseType := ResponseType.ResponseTypeInChannel })] :=
  (complete_success_message ⟨"k", "s", true, false, "bkt"⟩
      { image := none, imageErr := none,
        completion := some ⟨[⟨"A function that calls itself."⟩]⟩, completionErr := none,
        float32 := 7, uuid := "u", newClientErr := none, copyErr := none, closeErr := none,
        aclErr := none, postErr := none }
      "explain recursion" ⟨"gpt explain recursion", "https://hooks/1"⟩
      ⟨[⟨"A function that calls itself."⟩]⟩ ⟨"A function that calls itself."⟩ [] rfl rfl rfl).1

/-- C6: when the completion API call returns an error, `completeText` and
`completeCode` make the API call, log the error and return: no webhook post is
made, whatever the value of `sendToSlack`, and the run does not panic. -/
theorem complete_error_no_post (g : Globals) (w : World) (prompt : String)
    (cmd : SlashCommand) (e : String) (herr : w.completionErr = some e) :
    (completeText g w prompt cmd).trace
      = [Event.CompleteText prompt Model.MODEL_GPT_DAVINCI w.float32 256,
         Event.Log Level.Error ("Error requesting text completion: " ++ e)] ∧
    (completeCode g w prompt cmd).trace
      = [Event.CompleteText prompt Model.MODEL_CODEX_DAVINCI w.float32 256,
         Event.Log Level.Error ("Error requesting text completion: " ++ e)] ∧
    posts (completeText g w prompt cmd).trace = [] ∧
    posts (completeCode g w prompt cmd).trace = [] ∧
    (completeText g w prompt cmd).panicked = false ∧
    (completeCode g w prompt cmd).panicked = false := by
  simp [completeText, completeCode, herr, posts]

/-- The C6 theorem at a failed completion call with notifications enabled and
a response present: nothing is posted. -/
theorem complete_error_no_post_witness :
    posts (completeText ⟨"k", "s", true, false, "bkt"⟩
        { image := none, imageErr := none,
          completion := some ⟨[⟨"partial"⟩]⟩, completionErr := some "status 429",
          float32 := 7, uuid := "u", newClientErr := none, copyErr := none, closeErr := none,
          aclErr := none, postErr := none }
        "explain recursion" ⟨"gpt explain recursion", "https://hooks/1"⟩).trace = [] ∧
    posts (completeCode ⟨"k", "s", true, false, "bkt"⟩
        { image := none, imageErr := none,
          completion := some ⟨[⟨"partial"⟩]⟩, completionErr := some "status 429",
          float32 := 7, uuid := "u", newClientErr := none, copyErr := none, closeErr := none,
          aclErr := none, postErr := none }
        "explain recursion" ⟨"gpt explain recursion", "https://hooks/1"⟩).trace = [] :=
  ⟨(complete_error_no_post ⟨"k", "s", true, false, "bkt"⟩
      { image := none, imageErr := none,
        completion := some ⟨[⟨"partial"⟩]⟩, completionErr := some "status 429",
        float32 := 7, uuid := "u", newClientErr := none, copyErr := none, closeErr := none,
        aclErr := none, postErr := none }
      "explain recursion" ⟨"gpt explain recursion", "https://hooks/1"⟩ "status 429" rfl).2.2.1,
   (complete_error_no_post ⟨"k", "s", true, false, "bkt"⟩
      { image := none, imageErr := none,
        completion := some ⟨[⟨"partial"⟩]⟩, completionErr := some "status 429",
        float32 := 7, uuid := "u", newClientErr := none, copyErr := none, closeErr := none,
        aclErr := none, postErr := none }
      "explain recursion" ⟨"gpt explain recursion", "https://hooks/1"⟩ "status 429" rfl).2.2.2.1⟩

/-- The writers opened by `generateImage` once `img.Data[0]` exists and the
storage client was created. -/
theorem uploads_generateImage_of_data (g : Globals) (w : World) (prompt : String)
    (cmd : SlashCommand) (bucket : String) (d : ImageData)
    (h : w.image.bind (fun img => img.Data.head?) = some d)
    (hc : w.newClientErr = none) :
    uploads (generateImage g w prompt cmd bucket).trace
      = [(bucket, "dalle_" ++ w.uuid ++ ".png")] := by
  rw [generateImage_trace_of_data g w prompt cmd bucket d h hc]
  cases g.sendToSlack <;>
    simp only [uploads_append, uploads_logError, if_true, Bool.false_eq_true, if_false] <;> rfl

/-- The ACL-set calls made by `generateImage` once `img.Data[0]` exists and
the storage client was created. -/
theorem aclSets_generateImage_of_data (g : Globals) (w : World) (prompt : String)
    (cmd : SlashCommand) (bucket : String) (d : ImageData)
    (h : w.image.bind (fun img => img.Data.head?) = some d)
    (hc : w.newClientErr = none) :
    aclSets (generateImage g w prompt cmd bucket).trace
      = [(bucket, "dalle_" ++ w.uuid ++ ".png")] := by
  rw [generateImage_trace_of_data g w prompt cmd bucket d h hc]
  cases g.sendToSlack <;>
    simp only [aclSets_append, aclSets_logError, if_true, Bool.false_eq_true, if_false] <;> rfl

/-- The webhook posts made by `generateImage` once `img.Data[0]` exists and
the storage client was created. -/
theorem posts_generateImage_of_data (g : Globals) (w : World) (prompt : String)
    (cmd : SlashCommand) (bucket : String) (d : ImageData)
    (h : w.image.bind (fun img => img.Data.head?) = some d)
    (hc : w.newClientErr = none) :
    posts (generateImage g w prompt cmd bucket).trace
      = (if g.sendToSlack = true then
          [(cmd.ResponseURL,
            { Blocks := [Block.ImageBlock
                ("https://storage.googleapis.com/" ++ bucket ++ "/"
                  ++ ("dalle_" ++ w.uuid ++ ".png"))
                prompt "image1"
                (some { Type_ := TextType.PlainTextType, Text := prompt, Emoji := false,
                        Verbatim := false })],
              ResponseType := ResponseType.ResponseTypeInChannel })]
        else []) := by
  rw [generateImage_trace_of_data g w prompt cmd bucket d h hc]
  cases g.sendToSlack <;>
    simp only [posts_append, posts_logError, if_true, Bool.false_eq_true, if_false] <;> rfl

/-- A run of `generateImage` that panics at `img.Data[0]` opens no writer,
makes no ACL-set call and posts nothing. -/
theorem generateImage_of_no_data_silent (g : Globals) (w : World) (prompt : String)
    (cmd : SlashCommand) (bucket : String)
    (h : w.image.bind (fun img => img.Data.head?) = none) :
    uploads (generateImage g w prompt cmd bucket).trace = [] ∧
    aclSets (generateImage g w prompt cmd bucket).trace = [] ∧
    posts (generateImage g w prompt cmd bucket).trace = [] := by
  rw [generateImage_trace_of_no_data g w prompt cmd bucket h]
  simp only [uploads_append, uploads_logError, aclSets_append, aclSets_logError,
    posts_append, posts_logError]
  exact ⟨rfl, rfl, rfl⟩

/-- A run of `generateImage` that panics at `gcs.Bucket` on the nil client
opens no writer, makes no ACL-set call and posts nothing. -/
theorem generateImage_of_client_error_silent (g : Globals) (w : World) (prompt : String)
    (cmd : SlashCommand) (bucket : String) (d : ImageData) (e : String)
    (h : w.image.bind (fun img => img.Data.head?) = some d)
    (hc : w.newClientErr = some e) :
    uploads (generateImage g w prompt cmd bucket).trace = [] ∧
    aclSets (generateImage g w prompt cmd bucket).trace = [] ∧
    posts (generateImage g w prompt cmd bucket).trace = [] := by
  rw [generateImage_trace_of_client_error g w prompt cmd bucket d e h hc]
  simp only [uploads_append, uploads_logError, aclSets_append, aclSets_logError,
    posts_append, posts_logError]
  exact ⟨rfl, rfl, rfl⟩

/-- C8: in every run of `generateImage` the writer, the ACL-set call and the
posted image URL are on no other object than `dalle_<id>.png` of the bucket
passed in.  When the API call returns an image and `storage.NewClient`
succeeds, the run does not panic, the writer is opened on that object of that
bucket, the ACL-set call is made on the same object, and the image URL of the
posted image block is `https://storage.googleapis.com/<bucket>/dalle_<id>.png`
(posted exactly when `sendToSlack` is true).  When the API call returns no
image or `storage.NewClient` fails, the run panics with no writer, no ACL-set
call and no post. -/
theorem generateImage_object_and_url (g : Globals) (w : World) (prompt : String)
    (cmd : SlashCommand) (bucket : String) :
    (∀ o ∈ uploads (generateImage g w prompt cmd bucket).trace,
      o = (bucket, "dalle_" ++ w.uuid ++ ".png")) ∧
    (∀ o ∈ aclSets (generateImage g w prompt cmd bucket).trace,
      o = (bucket, "dalle_" ++ w.uuid ++ ".png")) ∧
    (∀ u ∈ postedImageURLs (generateImage g w prompt cmd bucket).trace,
      u = "https://storage.googleapis.com/" ++ bucket ++ "/" ++ "dalle_" ++ w.uuid ++ ".png") ∧
    (∀ d : ImageData, w.image.bind (fun img => img.Data.head?) = some d →
      w.newClientErr = none →
      (generateImage g w prompt cmd bucket).panicked = false ∧
      uploads (generateImage g w prompt cmd bucket).trace
        = [(bucket, "dalle_" ++ w.uuid ++ ".png")] ∧
      aclSets (generateImage g w prompt cmd bucket).trace
        = [(bucket, "dalle_" ++ w.uuid ++ ".png")] ∧
      postedImageURLs (generateImage g w prompt cmd bucket).trace
        = (if g.sendToSlack = true then
            ["https://storage.googleapis.com/" ++ bucket ++ "/" ++ "dalle_" ++ w.uuid ++ ".png"]
          else [])) ∧
    (w.image.bind (fun img => img.Data.head?) = none ∨ w.newClientErr ≠ none →
      (generateImage g w prompt cmd bucket).panicked = true ∧
      uploads (generateImage g w prompt cmd bucket).trace = [] ∧
      aclSets (generateImage g w prompt cmd bucket).trace = [] ∧
      postedImageURLs (generateImage g w prompt cmd bucket).trace = []) := by
  have hurl : "https://storage.googleapis.com/" ++ bucket ++ "/" ++ ("dalle_" ++ w.uuid ++ ".png")
      = "https://storage.googleapis.com/" ++ bucket ++ "/" ++ "dalle_" ++ w.uuid ++ ".png" := by
    simp only [String.append_assoc]
  cases h : w.image.bind (fun img => img.Data.head?) with
  | none =>
    obtain ⟨h1, h2, h3⟩ := generateImage_of_no_data_silent g w prompt cmd bucket h
    have hp : (generateImage g w prompt cmd bucket).panicked = true := by
      rw [generateImage_trace_of_no_data g w prompt cmd bucket h]
    simp [postedImageURLs, h1, h2, h3, hp]
  | some d =>
    cases hc : w.newClientErr with
    | some e =>
      obtain ⟨h1, h2, h3⟩ := generateImage_of_client_error_silent g w prompt cmd bucket d e h hc
      have hp : (generateImage g w prompt cmd bucket).panicked = true := by
        rw [generateImage_trace_of_client_error g w prompt cmd bucket d e h hc]
      simp [postedImageURLs, h1, h2, h3, hp]
    | none =>
      have h1 := uploads_generateImage_of_data g w prompt cmd bucket d h hc
      have h2 := aclSets_generateImage_of_data g w prompt cmd bucket d h hc
      have h3 := posts_generateImage_of_data g w prompt cmd bucket d h hc
      have hp : (generateImage g w prompt cmd bucket).panicked = false := by
        rw [generateImage_trace_of_data g w prompt cmd bucket d h hc]
      rw [hurl] at h3
      cases hs : g.sendToSlack <;> rw [hs] at h3 <;> simp [postedImageURLs, h1, h2, h3, hp]

/-- The C8 theorem at the bucket "bkt" and the identifier
"123e4567-e89b-12d3-a456-426614174000", with an image returned and the storage
client created; and at a run in which `storage.NewClient` fails. -/
theorem generateImage_object_and_url_witness :
    ((generateImage ⟨"k", "s", true, false, "bkt"⟩
        { image := some ⟨[⟨"aGk="⟩]⟩, imageErr := none, completion := none, completionErr := none,
          float32 := 7, uuid := "123e4567-e89b-12d3-a456-426614174000", newClientErr := none,
          copyErr := none, closeErr := none, aclErr := none, postErr := none }
        "a red fox" ⟨"dalle a red fox", "https://hooks/1"⟩ "bkt").panicked = false ∧
      uploads (generateImage ⟨"k", "s", true, false, "bkt"⟩
        { image := some ⟨[⟨"aGk="⟩]⟩, imageErr := none, completion := none, completionErr := none,
          float32 := 7, uuid := "123e4567-e89b-12d3-a456-426614174000", newClientErr := none,
          copyErr := none, closeErr := none, aclErr := none, postErr := none }
        "a red fox" ⟨"dalle a red fox", "https://hooks/1"⟩ "bkt").trace
        = [("bkt", "dalle_123e4567-e89b-12d3-a456-426614174000.png")] ∧
      aclSets (generateImage ⟨"k", "s", true, false, "bkt"⟩
        { image := some ⟨[⟨"aGk="⟩]⟩, imageErr := none, completion := none, completionErr := none,
          float32 := 7, uuid := "123e4567-e89b-12d3-a456-426614174000", newClientErr := none,
          copyErr := none, closeErr := none, aclErr := none, postErr := none }
        "a red fox" ⟨"dalle a red fox", "https://hooks/1"⟩ "bkt").trace
        = [("bkt", "dalle_123e4567-e89b-12d3-a456-426614174000.png")] ∧
      postedImageURLs (generateImage ⟨"k", "s", true, false, "bkt"⟩
        { image := some ⟨[⟨"aGk="⟩]⟩, imageErr := none, completion := none, completionErr := none,
          float32 := 7, uuid := "123e4567-e89b-12d3-a456-426614174000", newClientErr := none,
          copyErr := none, closeErr := none, aclErr := none, postErr := none }
        "a red fox" ⟨"dalle a red fox", "https://hooks/1"⟩ "bkt").trace
        = ["https://storage.googleapis.com/bkt/dalle_123e4567-e89b-12d3-a456-426614174000.png"]) ∧
    ((generateImage ⟨"k", "s", true, false, "bkt"⟩
        { image := some ⟨[⟨"aGk="⟩]⟩, imageErr := none, completion := none, completionErr := none,
          float32 := 7, uuid := "u", newClientErr := some "could not find default credentials",
          copyErr := none, closeErr := none, aclErr := none, postErr := none }
        "a red fox" ⟨"dalle a red fox", "https://hooks/1"⟩ "bkt").panicked = true ∧
      uploads (generateImage ⟨"k", "s", true, false, "bkt"⟩
        { image := some ⟨[⟨"aGk="⟩]⟩, imageErr := none, completion := none, completionErr := none,
          float32 := 7, uuid := "u", newClientErr := some "could not find default credentials",
          copyErr := none, closeErr := none, aclErr := none, postErr := none }
        "a red fox" ⟨"dalle a red fox", "https://hooks/1"⟩ "bkt").trace = [] ∧
      aclSets (generateImage ⟨"k", "s", true, false, "bkt"⟩
        { image := some ⟨[⟨"aGk="⟩]⟩, imageErr := none, completion := none, completionErr := none,
          float32 := 7, uuid := "u", newClientErr := some "could not find default credentials",
          copyErr := none, closeErr := none, aclErr := none, postErr := none }
        "a red fox" ⟨"dalle a red fox", "https://hooks/1"⟩ "bkt").trace = [] ∧
      postedImageURLs (generateImage ⟨"k", "s", true, false, "bkt"⟩
        { image := some ⟨[⟨"aGk="⟩]⟩, imageErr := none, completion := none, completionErr := none,
          float32 := 7, uuid := "u", newClientErr := some "could not find default credentials",
          copyErr := none, closeErr := none, aclErr := none, postErr := none }
        "a red fox" ⟨"dalle a red fox", "https://hooks/1"⟩ "bkt").trace = []) :=
  ⟨(generateImage_object_and_url ⟨"k", "s", true, false, "bkt"⟩
      { image := some ⟨[⟨"aGk="⟩]⟩, imageErr := none, completion := none, completionErr := none,
        float32 := 7, uuid := "123e4567-e89b-12d3-a456-426614174000", newClientErr := none,
        copyErr := none, closeErr := none, aclErr := none, postErr := none }
      "a red fox" ⟨"dalle a red fox", "https://hooks/1"⟩ "bkt").2.2.2.1 ⟨"aGk="⟩ rfl rfl,
   (generateImage_object_and_url ⟨"k", "s", true, false, "bkt"⟩
      { image := some ⟨[⟨"aGk="⟩]⟩, imageErr := none, completion := none, completionErr := none,
        float32 := 7, uuid := "u", newClientErr := some "could not find default credentials",
        copyErr := none, closeErr := none, aclErr := none, postErr := none }
      "a red fox" ⟨"dalle a red fox", "https://hooks/1"⟩ "bkt").2.2.2.2 (Or.inr (by decide))⟩

/-- C9: after the override section of `main`, each of the five settings holds
the value of its environment variable when the variable is set (for the two
booleans the value returned by `ParseBool`, which is true exactly on "1", "t",
"T", "true", "TRUE", "True") and the flag value when it is not set; and
`serve` listens on the value of PORT, or on "8080" when PORT is unset or
empty. -/
theorem main_env_overrides_flags (flags : Globals) (LookupEnv : String → Option String) :
    (∀ val, LookupEnv "SLACK_TOKEN" = some val → (main flags LookupEnv).slackToken = val) ∧
    (LookupEnv "SLACK_TOKEN" = none → (main flags LookupEnv).slackToken = flags.slackToken) ∧
    (∀ val, LookupEnv "SEND_TO_SLACK" = some val →
      (main flags LookupEnv).sendToSlack = (ParseBool val).1) ∧
    (LookupEnv "SEND_TO_SLACK" = none →
      (main flags LookupEnv).sendToSlack = flags.sendToSlack) ∧
    (∀ val, LookupEnv "OPEN_AI_TOKEN" = some val → (main flags LookupEnv).openaiToken = val) ∧
    (LookupEnv "OPEN_AI_TOKEN" = none →
      (main flags LookupEnv).openaiToken = flags.openaiToken) ∧
    (∀ val, LookupEnv "GCS_BUCKET" = some val → (main flags LookupEnv).gcsBucket = val) ∧
    (LookupEnv "GCS_BUCKET" = none → (main flags LookupEnv).gcsBucket = flags.gcsBucket) ∧
    (∀ val, LookupEnv "BOT_DEBUG" = some val → (main flags LookupEnv).debug = (ParseBool val).1) ∧
    (LookupEnv "BOT_DEBUG" = none → (main flags LookupEnv).debug = flags.debug) ∧
    (∀ val, (ParseBool val).1 = true ↔
      val = "1" ∨ val = "t" ∨ val = "T" ∨ val = "true" ∨ val = "TRUE" ∨ val = "True") ∧
    (∀ val, LookupEnv "PORT" = some val → val ≠ "" → serve LookupEnv = val) ∧
    (LookupEnv "PORT" = some "" → serve LookupEnv = "8080") ∧
    (LookupEnv "PORT" = none → serve LookupEnv = "8080") := by
  refine ⟨?_, ?_, ?_, ?_, ?_, ?_, ?_, ?_, ?_, ?_, ?_, ?_, ?_, ?_⟩
  · intro val h; simp [main, h]
  · intro h; simp [main, h]
  · intro val h; simp [main, h]
  · intro h; simp [main, h]
  · intro val h; simp [main, h]
  · intro h; simp [main, h]
  · intro val h; simp [main, h]
  · intro h; simp [main, h]
  · intro val h; simp [main, h]
  · intro h; simp [main, h]
  · intro val
    unfold ParseBool
    split
    · simp_all
    · split <;> simp_all
  · intro val h hne; simp [serve, Getenv, h, hne]
  · intro h; simp [serve, Getenv, h]
  · intro h; simp [serve, Getenv, h]

/-- The C9 theorem at the flags `-sendToSlack=true -gcs=flagbucket` and the
environment SEND_TO_SLACK=0, GCS_BUCKET=envbucket, PORT=9090. -/
theorem main_env_overrides_flags_witness :
    (main ⟨"", "", true, false, "flagbucket"⟩
      (fun key => if key = "SEND_TO_SLACK" then some "0"
        else if key = "GCS_BUCKET" then some "envbucket"
        else if key = "PORT" then some "9090" else none)).gcsBucket = "envbucket" ∧
    (main ⟨"", "", true, false, "flagbucket"⟩
      (fun key => if key = "SEND_TO_SLACK" then some "0"
        else if key = "GCS_BUCKET" then some "envbucket"
        else if key = "PORT" then some "9090" else none)).sendToSlack = (ParseBool "0").1 ∧
    (main ⟨"", "", true, false, "flagbucket"⟩
      (fun key => if key = "SEND_TO_SLACK" then some "0"
        else if key = "GCS_BUCKET" then some "envbucket"
        else if key = "PORT" then some "9090" else none)).debug = false ∧
    serve (fun key => if key = "SEND_TO_SLACK" then some "0"
        else if key = "GCS_BUCKET" then some "envbucket"
        else if key = "PORT" then some "9090" else none) = "9090" :=
  ⟨(main_env_overrides_flags ⟨"", "", true, false, "flagbucket"⟩
      (fun key => if key = "SEND_TO_SLACK" then some "0"
        else if key = "GCS_BUCKET" then some "envbucket"
        else if key = "PORT" then some "9090" else none)).2.2.2.2.2.2.1 "envbucket" (by decide),
   (main_env_overrides_flags ⟨"", "", true, false, "flagbucket"⟩
      (fun key => if key = "SEND_TO_SLACK" then some "0"
        else if key = "GCS_BUCKET" then some "envbucket"
        else if key = "PORT" then some "9090" else none)).2.2.1 "0" (by decide),
   (main_env_overrides_flags ⟨"", "", true, false, "flagbucket"⟩
      (fun key => if key = "SEND_TO_SLACK" then some "0"
        else if key = "GCS_BUCKET" then some "envbucket"
        else if key = "PORT" then some "9090" else none)).2.2.2.2.2.2.2.2.2.1 (by decide),
   (main_env_overrides_flags ⟨"", "", true, false, "flagbucket"⟩
      (fun key => if key = "SEND_TO_SLACK" then some "0"
        else if key = "GCS_BUCKET" then some "envbucket"
        else if key = "PORT" then some "9090" else none)).2.2.2.2.2.2.2.2.2.2.2.1 "9090"
      (by decide) (by decide)⟩

/-- C3: a run of `generateImage` in which the image API call returns an error
together with a response holding one image.  The error is logged and the run
goes on: it opens the storage client and the writer, copies, closes, sets the
ACL and posts the notification. -/
theorem generateImage_continues_after_api_error :
    generateImage ⟨"k", "s", true, false, "bkt"⟩
      { image := some ⟨[⟨"aGk="⟩]⟩, imageErr := some "json: cannot unmarshal string into Go struct field",
        completion := none, completionErr := none, float32 := 7, uuid := "u",
        newClientErr := none, copyErr := none, closeErr := none, aclErr := none,
        postErr := none }
      "a red fox" ⟨"dalle a red fox", "https://hooks/1"⟩ "bkt"
    = { trace :=
          [Event.GenerateImage "a red fox" ResponseFormat.RESPONSE_FORMAT_BASE64 "256x256" 1,
           Event.Log Level.Error
             "Error requesting image: json: cannot unmarshal string into Go struct field",
           Event.NewClient,
           Event.NewWriter "bkt" "dalle_u.png" true,
           Event.Copy "bkt" "dalle_u.png" "aGk=",
           Event.WriterClose "bkt" "dalle_u.png",
           Event.Log Level.Info "Blob dalle_u.png uploaded.\n",
           Event.ACLSet "bkt" "dalle_u.png",
           Event.Log Level.Info "Blob dalle_u.png is now publicly accessible.\n",
           Event.PostWebhook "https://hooks/1"
             { Blocks := [Block.ImageBlock "https://storage.googleapis.com/bkt/dalle_u.png"
                 "a red fox" "image1"
                 (some { Type_ := TextType.PlainTextType, Text := "a red fox", Emoji := false,
                         Verbatim := false })],
               ResponseType := ResponseType.ResponseTypeInChannel },
           Event.Cancel, Event.ClientClose],
        panicked := false } := by
  decide

/-- C4: a run of `generateImage` in which the copy into the writer and the
writer's `Close` both fail.  Both errors are logged, "uploaded" is logged, and
the ACL-set call is made on the object all the same. -/
theorem generateImage_acl_after_failed_upload :
    generateImage ⟨"k", "s", false, false, "bkt"⟩
      { image := some ⟨[⟨"aGk="⟩]⟩, imageErr := none,
        completion := none, completionErr := none, float32 := 7, uuid := "u",
        newClientErr := none, copyErr := some "context deadline exceeded",
        closeErr := some "context deadline exceeded", aclErr := some "404 No such object",
        postErr := none }
      "a red fox" ⟨"dalle a red fox", "https://hooks/1"⟩ "bkt"
    = { trace :=
          [Event.GenerateImage "a red fox" ResponseFormat.RESPONSE_FORMAT_BASE64 "256x256" 1,
           Event.NewClient,
           Event.NewWriter "bkt" "dalle_u.png" true,
           Event.Copy "bkt" "dalle_u.png" "aGk=",
           Event.Log Level.Error "io.Copy: context deadline exceeded",
           Event.WriterClose "bkt" "dalle_u.png",
           Event.Log Level.Error "Writer.Close: context deadline exceeded",
           Event.Log Level.Info "Blob dalle_u.png uploaded.\n",
           Event.ACLSet "bkt" "dalle_u.png",
           Event.Log Level.Error "ACLHandle.Set: 404 No such object",
           Event.Log Level.Info "Blob dalle_u.png is now publicly accessible.\n",
           Event.Cancel, Event.ClientClose],
        panicked := false } := by
  decide

end OpenAIBot
